import Mathlib

/-!
Shallow embedding of the deterministic derivation layer of the
HNG-Stage-3 weather agent (src/mastra/tools/weather-tool.ts and
src/mastra/scorers/weather-scorer.ts).

Numbers coming from the provider (temperatures, wind speeds,
precipitation, scores) are modelled as rationals; labels are strings.
The network fetchers are modelled by their pure reshaping step: they
take the already-parsed provider payload as an argument.
-/

/-- Normalized current-conditions record, the output shape of
`getCurrentWeather` (weather-tool.ts lines 200-211). -/
structure WeatherRecord where
  temperature : ℚ
  feelsLike : ℚ
  humidity : ℚ
  windSpeed : ℚ
  windGust : ℚ
  precipitation : ℚ
  uvIndex : Option ℚ
  conditions : String
  location : String
  country : String
deriving DecidableEq, Repr

/-- `getWeatherCondition` (weather-tool.ts lines 399-431): the record
literal `conditions[code] || "Unknown"` as a total match on the integer
weather code. -/
def getWeatherCondition (code : ℤ) : String :=
  match code with
  | 0 => "Clear sky"
  | 1 => "Mainly clear"
  | 2 => "Partly cloudy"
  | 3 => "Overcast"
  | 45 => "Foggy"
  | 48 => "Depositing rime fog"
  | 51 => "Light drizzle"
  | 53 => "Moderate drizzle"
  | 55 => "Dense drizzle"
  | 56 => "Light freezing drizzle"
  | 57 => "Dense freezing drizzle"
  | 61 => "Slight rain"
  | 63 => "Moderate rain"
  | 65 => "Heavy rain"
  | 66 => "Light freezing rain"
  | 67 => "Heavy freezing rain"
  | 71 => "Slight snow fall"
  | 73 => "Moderate snow fall"
  | 75 => "Heavy snow fall"
  | 77 => "Snow grains"
  | 80 => "Slight rain showers"
  | 81 => "Moderate rain showers"
  | 82 => "Violent rain showers"
  | 85 => "Slight snow showers"
  | 86 => "Heavy snow showers"
  | 95 => "Thunderstorm"
  | 96 => "Thunderstorm with slight hail"
  | 99 => "Thunderstorm with heavy hail"
  | _ => "Unknown"

/-- The translation table of `getWeatherCondition` as an association
list, in source order (weather-tool.ts lines 400-429). -/
def conditionTable : List (ℤ × String) :=
  [(0, "Clear sky"), (1, "Mainly clear"), (2, "Partly cloudy"),
   (3, "Overcast"), (45, "Foggy"), (48, "Depositing rime fog"),
   (51, "Light drizzle"), (53, "Moderate drizzle"), (55, "Dense drizzle"),
   (56, "Light freezing drizzle"), (57, "Dense freezing drizzle"),
   (61, "Slight rain"), (63, "Moderate rain"), (65, "Heavy rain"),
   (66, "Light freezing rain"), (67, "Heavy freezing rain"),
   (71, "Slight snow fall"), (73, "Moderate snow fall"),
   (75, "Heavy snow fall"), (77, "Snow grains"),
   (80, "Slight rain showers"), (81, "Moderate rain showers"),
   (82, "Violent rain showers"), (85, "Slight snow showers"),
   (86, "Heavy snow showers"), (95, "Thunderstorm"),
   (96, "Thunderstorm with slight hail"),
   (99, "Thunderstorm with heavy hail")]

/-- The four suitability levels of the activity output schema
(weather-tool.ts line 115). -/
inductive Suitability
  | excellent
  | good
  | fair
  | poor
deriving DecidableEq, Repr

/-- One entry of the fixed activity catalog `allActivities`
(weather-tool.ts lines 246-270); `tempMin`/`tempMax` are
`tempRange[0]`/`tempRange[1]`. -/
structure CatalogActivity where
  activity : String
  tempMin : ℚ
  tempMax : ℚ
  conditions : List String
deriving DecidableEq, Repr

/-- The fixed catalog of 7 candidate activities, in source order
(weather-tool.ts lines 246-270). -/
def allActivities : List CatalogActivity :=
  [{ activity := "Hiking", tempMin := 10, tempMax := 30,
     conditions := ["Clear sky", "Mainly clear", "Partly cloudy"] },
   { activity := "Beach", tempMin := 20, tempMax := 35,
     conditions := ["Clear sky", "Mainly clear"] },
   { activity := "Cycling", tempMin := 5, tempMax := 30,
     conditions := ["Clear sky", "Mainly clear", "Partly cloudy"] },
   { activity := "Picnic", tempMin := 15, tempMax := 28,
     conditions := ["Clear sky", "Mainly clear", "Partly cloudy"] },
   { activity := "Museum", tempMin := -10, tempMax := 40, conditions := ["All"] },
   { activity := "Shopping", tempMin := -10, tempMax := 40, conditions := ["All"] },
   { activity := "Restaurant", tempMin := -10, tempMax := 40, conditions := ["All"] }]

/-- `getActivityReason` (weather-tool.ts lines 433-444). -/
def getActivityReason (activity : String) (weather : WeatherRecord) : String :=
  match activity with
  | "Hiking" => "Perfect temperature of " ++ toString weather.temperature ++
      "°C and " ++ weather.conditions.toLower ++ " for hiking"
  | "Beach" => "Warm " ++ toString weather.temperature ++
      "°C and clear skies ideal for beach activities"
  | "Cycling" => "Comfortable conditions for cycling with mild temperatures"
  | "Picnic" => "Pleasant weather for outdoor dining and relaxation"
  | "Museum" => "Great indoor activity regardless of weather conditions"
  | "Shopping" => "Comfortable indoor activity suitable for any weather"
  | "Restaurant" => "Enjoy dining in climate-controlled comfort"
  | _ => "Suitable activity for current conditions"

/-- `getIndoorAlternative` (weather-tool.ts lines 446-454): the JS
dictionary lookup returns `undefined` for the three indoor activities,
modelled as `none`. -/
def getIndoorAlternative (activity : String) : Option String :=
  match activity with
  | "Hiking" => some "Visit a nature museum or indoor botanical garden"
  | "Beach" => some "Visit an indoor pool or aquatic center"
  | "Cycling" => some "Try a stationary bike at a gym"
  | "Picnic" => some "Have an indoor picnic or visit a food hall"
  | _ => none

/-- One activity recommendation (weather-tool.ts lines 294-299 and
output schema lines 112-119). -/
structure ActivityRecommendation where
  activity : String
  suitability : Suitability
  reason : String
  indoorAlternative : Option String
deriving DecidableEq, Repr

/-- Output shape of `getActivityRecommendations`
(weather-tool.ts lines 302-307). -/
structure ActivityOutput where
  location : String
  currentConditions : String
  temperature : ℚ
  recommendations : List ActivityRecommendation
deriving DecidableEq, Repr

/-- Pure part of `getActivityRecommendations` (weather-tool.ts lines
240-308), taking the already-fetched current weather; the `interests`
parameter is accepted but never read, as in the source. -/
def getActivityRecommendations (weather : WeatherRecord)
    (interests : Option (List String)) : ActivityOutput :=
  let recommendations :=
    (allActivities.filter (fun act =>
        (decide (weather.temperature ≥ act.tempMin) &&
         decide (weather.temperature ≤ act.tempMax)) &&
        (act.conditions.contains "All" ||
         act.conditions.contains weather.conditions))).map
      (fun act =>
        let suitability :=
          if weather.temperature ≥ act.tempMin + 5 ∧
             weather.temperature ≤ act.tempMax - 5 then
            Suitability.excellent
          else if weather.precipitation > 5 then
            Suitability.fair
          else
            Suitability.good
        { activity := act.activity
          suitability := suitability
          reason := getActivityReason act.activity weather
          indoorAlternative := getIndoorAlternative act.activity })
  { location := weather.location
    currentConditions := weather.conditions
    temperature := weather.temperature
    recommendations := recommendations.take 5 }

/-- One synthetic alert (weather-tool.ts lines 319-324, 328-333 and
output schema lines 139-146). -/
structure AlertRecord where
  severity : String
  event : String
  description : String
  instructions : String
deriving DecidableEq, Repr

/-- The fixed Heavy Rain alert pushed when precipitation > 20
(weather-tool.ts lines 318-325). -/
def heavyRainAlert : AlertRecord :=
  { severity := "moderate", event := "Heavy Rain",
    description := "Heavy rainfall expected in the area",
    instructions := "Avoid low-lying areas and drive carefully" }

/-- The fixed High Winds alert pushed when wind speed > 30
(weather-tool.ts lines 327-334). -/
def highWindsAlert : AlertRecord :=
  { severity := "severe", event := "High Winds",
    description := "Strong winds expected",
    instructions := "Secure outdoor objects and avoid wooded areas" }

/-- Output shape of `getWeatherAlerts` (weather-tool.ts lines 336-341). -/
structure AlertsOutput where
  location : String
  country : String
  alerts : List AlertRecord
  hasAlerts : Bool
deriving DecidableEq, Repr

/-- Pure part of `getWeatherAlerts` (weather-tool.ts lines 310-342):
two sequential pushes guarded by the precipitation and wind thresholds. -/
def getWeatherAlerts (weather : WeatherRecord) : AlertsOutput :=
  let alerts : List AlertRecord := []
  let alerts := if weather.precipitation > 20 then alerts ++ [heavyRainAlert] else alerts
  let alerts := if weather.windSpeed > 30 then alerts ++ [highWindsAlert] else alerts
  { location := weather.location
    country := weather.country
    alerts := alerts
    hasAlerts := decide (alerts.length > 0) }

/-- JS `String.prototype.includes`: `s` contains `t` as a substring. -/
def strIncludes (s t : String) : Bool := (s.splitOn t).length ≥ 2

/-- The clothing recommendation bundle (weather-tool.ts lines 166-171,
389-394). -/
structure ClothingBundle where
  layers : List String
  accessories : List String
  footwear : String
  notes : String
deriving DecidableEq, Repr

/-- Output shape of `getClothingRecommendations`
(weather-tool.ts lines 385-395). -/
structure ClothingOutput where
  location : String
  temperature : ℚ
  conditions : String
  recommendations : ClothingBundle
deriving DecidableEq, Repr

/-- Pure part of `getClothingRecommendations` (weather-tool.ts lines
344-396): the four-tier temperature ladder, then rain-gear append, then
the hiking substring override. -/
def getClothingRecommendations (weather : WeatherRecord)
    (activity : Option String) : ClothingOutput :=
  let base : List String × List String × String :=
    if weather.temperature < 0 then
      (["Thermal base layer", "Insulated mid-layer", "Waterproof jacket"],
       ["Warm hat", "Gloves", "Scarf"], "Insulated waterproof boots")
    else if weather.temperature < 10 then
      (["Long-sleeve shirt", "Fleece or sweater", "Light jacket"],
       ["Light hat", "Gloves if windy"], "Closed shoes or boots")
    else if weather.temperature < 20 then
      (["T-shirt", "Light jacket or hoodie"], [],
       "Sneakers or comfortable shoes")
    else
      (["T-shirt or light top"], ["Sunglasses", "Hat for sun protection"],
       "Sandals or breathable shoes")
  let layers := base.1
  let accessories := base.2.1
  let footwear := base.2.2
  let rain := decide (weather.precipitation > 5)
  let accessories :=
    if rain then accessories ++ ["Umbrella", "Waterproof jacket"] else accessories
  let notes := if rain then "Expect rain, bring waterproof gear" else ""
  let hiking :=
    match activity with
    | some a => strIncludes a.toLower "hiking"
    | none => false
  let footwear := if hiking then "Hiking boots" else footwear
  let accessories :=
    if hiking then accessories ++ ["Backpack", "Water bottle"] else accessories
  { location := weather.location
    temperature := weather.temperature
    conditions := weather.conditions
    recommendations :=
      { layers := layers
        accessories := accessories
        footwear := footwear
        notes := if notes = "" then "Dress comfortably for the conditions" else notes } }

/-- One geocoding result (weather-tool.ts lines 4-12, 184-188). -/
structure GeoResult where
  latitude : ℚ
  longitude : ℚ
  name : String
  country : String
deriving DecidableEq, Repr

/-- The provider's `current` payload (weather-tool.ts lines 14-26). -/
structure CurrentData where
  temperature_2m : ℚ
  apparent_temperature : ℚ
  relative_humidity_2m : ℚ
  wind_speed_10m : ℚ
  wind_gusts_10m : ℚ
  weather_code : ℤ
  precipitation : ℚ
  uv_index : Option ℚ
deriving DecidableEq, Repr

/-- Pure part of `getCurrentWeather` (weather-tool.ts lines 191-212):
reshape the geocoding result and the provider's current payload into a
`WeatherRecord`. -/
def getCurrentWeather (geo : GeoResult) (cur : CurrentData) : WeatherRecord :=
  { temperature := cur.temperature_2m
    feelsLike := cur.apparent_temperature
    humidity := cur.relative_humidity_2m
    windSpeed := cur.wind_speed_10m
    windGust := cur.wind_gusts_10m
    precipitation := cur.precipitation
    uvIndex := cur.uv_index
    conditions := getWeatherCondition cur.weather_code
    location := geo.name
    country := geo.country }

/-- The provider's `daily` payload of parallel arrays
(weather-tool.ts lines 28-38). -/
structure DailyData where
  time : List String
  temperature_2m_max : List ℚ
  temperature_2m_min : List ℚ
  weather_code : List ℤ
  precipitation_probability_max : List ℚ
  wind_speed_10m_max : List ℚ
  uv_index_max : List ℚ
deriving DecidableEq, Repr

/-- `getWeatherCondition` applied to a possibly-missing array element:
in JS, indexing past the end yields `undefined` and the dictionary
lookup then falls through to "Unknown". -/
def condOfCode : Option ℤ → String
  | some c => getWeatherCondition c
  | none => "Unknown"

/-- One forecast entry (weather-tool.ts lines 223-231): fields read
from a possibly shorter parallel array are `Option`s, since JS indexing
past the end yields `undefined`. -/
structure ForecastDay where
  date : String
  high : Option ℚ
  low : Option ℚ
  conditions : String
  precipitationChance : Option ℚ
  windSpeed : Option ℚ
  uvIndex : Option ℚ
deriving DecidableEq, Repr

/-- Output shape of `getWeatherForecast` (weather-tool.ts lines 233-237). -/
structure ForecastOutput where
  location : String
  country : String
  forecast : List ForecastDay
deriving DecidableEq, Repr

/-- Pure part of `getWeatherForecast` (weather-tool.ts lines 214-238):
map over `daily.time` with the index, reading the parallel arrays at
that index. -/
def getWeatherForecast (geo : GeoResult) (daily : DailyData) : ForecastOutput :=
  let forecast := daily.time.enum.map (fun p =>
    { date := p.2
      high := daily.temperature_2m_max[p.1]?
      low := daily.temperature_2m_min[p.1]?
      conditions := condOfCode daily.weather_code[p.1]?
      precipitationChance := daily.precipitation_probability_max[p.1]?
      windSpeed := daily.wind_speed_10m_max[p.1]?
      uvIndex := daily.uv_index_max[p.1]? : ForecastDay })
  { location := geo.name
    country := geo.country
    forecast := forecast }

/-- The verdict-to-score table of the tool-appropriateness scorer
(weather-scorer.ts lines 68-73); `none` for a verdict outside the enum,
matching the JS lookup's `undefined`. -/
def appropriatenessScoreMap (verdict : String) : Option ℚ :=
  match verdict with
  | "excellent" => some 1.0
  | "good" => some 0.8
  | "fair" => some 0.5
  | "poor" => some 0.2
  | _ => none

/-- `toolCallAppropriatenessScorer`'s score step (weather-scorer.ts
lines 66-77): `scoreMap[...] || 0.5`, scaled by `confidence ?? 1`,
clamped by `Math.max(0, Math.min(1, _))`. -/
def toolCallAppropriatenessGenerateScore (appropriateness : String)
    (confidence : Option ℚ) : ℚ :=
  let baseScore := (appropriatenessScoreMap appropriateness).getD 0.5
  max 0 (min 1 (baseScore * confidence.getD 1))

/-- The verdict-to-score table of the completeness scorer
(weather-scorer.ts lines 153-158). -/
def completenessScoreMap (verdict : String) : Option ℚ :=
  match verdict with
  | "complete" => some 1.0
  | "mostly_complete" => some 0.8
  | "partial" => some 0.5
  | "incomplete" => some 0.2
  | _ => none

/-- `completenessScorer`'s score step (weather-scorer.ts lines 151-160):
`scoreMap[...] || 0.5`, no confidence field and no clamp. -/
def completenessGenerateScore (completeness : String) : ℚ :=
  (completenessScoreMap completeness).getD 0.5

/-- The stubbed geocoding result of the end-to-end scenario
(spec section 8: `fetchCurrent("Paris")` against a stubbed provider). -/
def parisGeo : GeoResult :=
  { latitude := 49, longitude := 2, name := "Paris", country := "France" }

/-- The stubbed provider payload of the end-to-end scenario:
weather_code = 0 and temperature = 22 (all other readings 0). -/
def stubCurrent : CurrentData :=
  { temperature_2m := 22, apparent_temperature := 22,
    relative_humidity_2m := 0, wind_speed_10m := 0, wind_gusts_10m := 0,
    weather_code := 0, precipitation := 0, uv_index := none }

/-- The weather record obtained from the stubbed provider. -/
def stubRecord : WeatherRecord := getCurrentWeather parisGeo stubCurrent

/-- The Hiking recommendation produced for the stubbed record. -/
def hikingStubRec : ActivityRecommendation :=
  { activity := "Hiking", suitability := Suitability.excellent,
    reason := getActivityReason "Hiking" stubRecord,
    indoorAlternative := getIndoorAlternative "Hiking" }

/-- A concrete two-day provider payload with ascending dates, used to
instantiate the forecast theorem. -/
def witnessDaily : DailyData :=
  { time := ["2025-01-01", "2025-01-02"],
    temperature_2m_max := [5, 6], temperature_2m_min := [1, 2],
    weather_code := [0, 3], precipitation_probability_max := [10, 20],
    wind_speed_10m_max := [7, 8], uv_index_max := [1, 2] }

/-- Any recommendation produced by `getActivityRecommendations` comes from a
catalog activity that passed the temperature and condition filter, shares its
name, and carries the suitability computed for that activity. -/
theorem mem_activity_recommendations {weather : WeatherRecord}
    {interests : Option (List String)} {r : ActivityRecommendation}
    (hr : r ∈ (getActivityRecommendations weather interests).recommendations) :
    ∃ act ∈ allActivities,
      r.activity = act.activity ∧
      act.tempMin ≤ weather.temperature ∧ weather.temperature ≤ act.tempMax ∧
      ("All" ∈ act.conditions ∨ weather.conditions ∈ act.conditions) ∧
      r.suitability =
        (if weather.temperature ≥ act.tempMin + 5 ∧
            weather.temperature ≤ act.tempMax - 5 then Suitability.excellent
         else if weather.precipitation > 5 then Suitability.fair
         else Suitability.good) := by
  simp only [getActivityRecommendations] at hr
  have hr1 := List.mem_of_mem_take hr
  rcases List.mem_map.1 hr1 with ⟨act, hact, hfa⟩
  rcases List.mem_filter.1 hact with ⟨hmem, hp⟩
  subst hfa
  simp only [Bool.and_eq_true, decide_eq_true_eq, Bool.or_eq_true,
    List.contains, List.elem_iff] at hp
  exact ⟨act, hmem, rfl, hp.1.1, hp.1.2, hp.2, rfl⟩

/-- C1: for every weather record (and any interests), the activity
recommender returns at most 5 recommendations; every returned
recommendation names a catalog activity whose inclusive [min,max]
temperature range contains the current temperature and which either
accepts all conditions or lists the current condition label; and the
returned activities appear in catalog order (their names form a sublist
of the catalog's names). -/
theorem activity_recommendations_capped_filtered_ordered
    (weather : WeatherRecord) (interests : Option (List String)) :
    (getActivityRecommendations weather interests).recommendations.length ≤ 5 ∧
    (∀ r ∈ (getActivityRecommendations weather interests).recommendations,
      ∃ act ∈ allActivities,
        r.activity = act.activity ∧
        act.tempMin ≤ weather.temperature ∧ weather.temperature ≤ act.tempMax ∧
        ("All" ∈ act.conditions ∨ weather.conditions ∈ act.conditions)) ∧
    ((getActivityRecommendations weather interests).recommendations.map
        ActivityRecommendation.activity).Sublist
      (allActivities.map CatalogActivity.activity) := by
  refine ⟨?_, ?_, ?_⟩
  · exact List.length_take_le 5 _
  · intro r hr
    obtain ⟨act, hmem, hname, h1, h2, h3, _⟩ := mem_activity_recommendations hr
    exact ⟨act, hmem, hname, h1, h2, h3⟩
  · simp only [getActivityRecommendations]
    rw [List.map_take, List.map_map]
    exact (List.take_sublist 5 _).trans
      ((List.filter_sublist allActivities).map CatalogActivity.activity)

/-- C2: every surviving activity's suitability is "excellent" exactly when
the temperature is at least 5 degrees inside both range bounds, otherwise
"fair" when precipitation > 5, otherwise "good"; "poor" is never produced. -/
theorem activity_suitability_rule
    (weather : WeatherRecord) (interests : Option (List String)) :
    ∀ r ∈ (getActivityRecommendations weather interests).recommendations,
      r.suitability ≠ Suitability.poor ∧
      ∃ act ∈ allActivities,
        r.activity = act.activity ∧
        r.suitability =
          (if weather.temperature ≥ act.tempMin + 5 ∧
              weather.temperature ≤ act.tempMax - 5 then Suitability.excellent
           else if weather.precipitation > 5 then Suitability.fair
           else Suitability.good) := by
  intro r hr
  obtain ⟨act, hmem, hname, _, _, _, hsuit⟩ := mem_activity_recommendations hr
  refine ⟨?_, act, hmem, hname, hsuit⟩
  rw [hsuit]
  split
  · simp
  · split <;> simp

/-- C9: the `interests` argument is accepted but has no influence on the
activity recommender's output. -/
theorem activity_interests_ignored (weather : WeatherRecord)
    (i1 i2 : Option (List String)) :
    getActivityRecommendations weather i1 = getActivityRecommendations weather i2 := rfl

/-- C10: the alert synthesizer's `hasAlerts` flag is true exactly when its
alert list is non-empty. -/
theorem alerts_hasAlerts_iff_nonempty (weather : WeatherRecord) :
    (getWeatherAlerts weather).hasAlerts = true ↔
      (getWeatherAlerts weather).alerts ≠ [] := by
  simp only [getWeatherAlerts, decide_eq_true_eq]
  exact List.length_pos

/-- C3: a "moderate" Heavy Rain alert is emitted exactly when precipitation
is strictly greater than 20, a "severe" High Winds alert exactly when wind
speed is strictly greater than 30; when both trigger, Heavy Rain precedes
High Winds; and no other alert is ever produced. -/
theorem weather_alerts_rule (weather : WeatherRecord) :
    heavyRainAlert.severity = "moderate" ∧
    highWindsAlert.severity = "severe" ∧
    (heavyRainAlert ∈ (getWeatherAlerts weather).alerts ↔
      weather.precipitation > 20) ∧
    (highWindsAlert ∈ (getWeatherAlerts weather).alerts ↔
      weather.windSpeed > 30) ∧
    (weather.precipitation > 20 → weather.windSpeed > 30 →
      (getWeatherAlerts weather).alerts = [heavyRainAlert, highWindsAlert]) ∧
    (∀ a ∈ (getWeatherAlerts weather).alerts,
      a = heavyRainAlert ∨ a = highWindsAlert) := by
  refine ⟨rfl, rfl, ?_, ?_, ?_, ?_⟩ <;>
    by_cases hp : weather.precipitation > 20 <;>
    by_cases hw : weather.windSpeed > 30 <;>
    simp [getWeatherAlerts, hp, hw, heavyRainAlert, highWindsAlert]

/-- C4: the clothing recommender selects exactly one of four base tiers via
the ladder `t < 0`, else `t < 10`, else `t < 20`, else the warm tier, the
first matching threshold winning; at a boundary temperature of exactly 0,
10 or 20 the strict comparison fails and the next tier of the ladder is
selected (shown on the unmodified `layers` component). -/
theorem clothing_tier_ladder (weather : WeatherRecord) (activity : Option String) :
    (weather.precipitation ≤ 5 → activity = none →
      (getClothingRecommendations weather activity).recommendations =
        (if weather.temperature < 0 then
          { layers := ["Thermal base layer", "Insulated mid-layer", "Waterproof jacket"]
            accessories := ["Warm hat", "Gloves", "Scarf"]
            footwear := "Insulated waterproof boots"
            notes := "Dress comfortably for the conditions" }
         else if weather.temperature < 10 then
          { layers := ["Long-sleeve shirt", "Fleece or sweater", "Light jacket"]
            accessories := ["Light hat", "Gloves if windy"]
            footwear := "Closed shoes or boots"
            notes := "Dress comfortably for the conditions" }
         else if weather.temperature < 20 then
          { layers := ["T-shirt", "Light jacket or hoodie"]
            accessories := []
            footwear := "Sneakers or comfortable shoes"
            notes := "Dress comfortably for the conditions" }
         else
          { layers := ["T-shirt or light top"]
            accessories := ["Sunglasses", "Hat for sun protection"]
            footwear := "Sandals or breathable shoes"
            notes := "Dress comfortably for the conditions" })) ∧
    (weather.temperature = 0 →
      (getClothingRecommendations weather activity).recommendations.layers =
        ["Long-sleeve shirt", "Fleece or sweater", "Light jacket"]) ∧
    (weather.temperature = 10 →
      (getClothingRecommendations weather activity).recommendations.layers =
        ["T-shirt", "Light jacket or hoodie"]) ∧
    (weather.temperature = 20 →
      (getClothingRecommendations weather activity).recommendations.layers =
        ["T-shirt or light top"]) := by
  refine ⟨?_, ?_, ?_, ?_⟩
  · intro hp ha
    subst ha
    have hrain : ¬(weather.precipitation > 5) := not_lt.2 hp
    by_cases h0 : weather.temperature < 0 <;>
      by_cases h10 : weather.temperature < 10 <;>
      by_cases h20 : weather.temperature < 20 <;>
      simp [getClothingRecommendations, h0, h10, h20, hrain]
  · intro he
    by_cases hrain : weather.precipitation > 5 <;>
      simp [getClothingRecommendations, he, hrain] <;> norm_num
  · intro he
    by_cases hrain : weather.precipitation > 5 <;>
      simp [getClothingRecommendations, he, hrain] <;> norm_num
  · intro he
    by_cases hrain : weather.precipitation > 5 <;>
      simp [getClothingRecommendations, he, hrain] <;> norm_num

/-- C5: the condition code translator is total — each of the 28 codes of
the fixed table maps to its exact label, and every other integer maps to
the "Unknown" sentinel. -/
theorem condition_translator_total (c : ℤ) :
    (∀ l, (c, l) ∈ conditionTable → getWeatherCondition c = l) ∧
    (c ∉ conditionTable.map Prod.fst → getWeatherCondition c = "Unknown") := by
  constructor
  · intro l hl
    simp only [conditionTable] at hl
    fin_cases hl <;> rfl
  · intro hc
    unfold getWeatherCondition
    split
    all_goals first
      | rfl
      | (exact absurd (by decide) hc)

/-- C6: for a valid day count and a well-formed provider payload (the
`time` array has `days` entries, in ascending date order), the forecast
fetcher returns exactly `days` entries whose dates are the provider's
dates in ascending order; and unconditionally, entry `i` is built from
index `i` of each of the provider's parallel arrays. -/
theorem forecast_zip_days (geo : GeoResult) (daily : DailyData) (days : ℕ)
    (hdays1 : 1 ≤ days) (hdays7 : days ≤ 7)
    (htime : daily.time.length = days)
    (hsorted : daily.time.Pairwise (· < ·)) :
    (getWeatherForecast geo daily).forecast.length = days ∧
    List.map ForecastDay.date (getWeatherForecast geo daily).forecast = daily.time ∧
    List.Pairwise (fun a b => a.date < b.date)
      (getWeatherForecast geo daily).forecast ∧
    (∀ i : ℕ, ((getWeatherForecast geo daily).forecast)[i]? =
      (daily.time[i]?).map (fun d =>
        { date := d
          high := daily.temperature_2m_max[i]?
          low := daily.temperature_2m_min[i]?
          conditions := condOfCode daily.weather_code[i]?
          precipitationChance := daily.precipitation_probability_max[i]?
          windSpeed := daily.wind_speed_10m_max[i]?
          uvIndex := daily.uv_index_max[i]? })) := by
  have hmapdate : List.map ForecastDay.date (getWeatherForecast geo daily).forecast =
      daily.time := by
    simp only [getWeatherForecast]
    rw [List.map_map]
    exact List.enum_map_snd daily.time
  refine ⟨?_, hmapdate, ?_, ?_⟩
  · simp only [getWeatherForecast, List.length_map, List.enum_length, htime]
  · rw [← hmapdate] at hsorted
    exact List.pairwise_map.1 hsorted
  · intro i
    simp only [getWeatherForecast]
    rw [List.getElem?_map, List.getElem?_enum, Option.map_map]
    rfl

/-- The base score of the tool-appropriateness scorer always lies in
[1/5, 1]: it is one of the four table values or the 0.5 fallback. -/
theorem appropriateness_base_bounds (v : String) :
    (1/5 : ℚ) ≤ (appropriatenessScoreMap v).getD 0.5 ∧
      (appropriatenessScoreMap v).getD 0.5 ≤ 1 := by
  unfold appropriatenessScoreMap
  split <;> norm_num

/-- C7: the scorers' score steps map each categorical verdict to its fixed
numeric value, fall back to the 0.5 base score for a verdict outside the
enumeration, scale by the confidence when one exists (absent confidence
acts as 1), clamp to [0,1]; confidence 1 returns the fixed value exactly
and confidence 0.5 halves it. -/
theorem scorer_verdict_score_rule (v : String) (conf : ℚ) :
    toolCallAppropriatenessGenerateScore "excellent" (some 1) = 1 ∧
    toolCallAppropriatenessGenerateScore "good" (some 1) = 0.8 ∧
    toolCallAppropriatenessGenerateScore "fair" (some 1) = 0.5 ∧
    toolCallAppropriatenessGenerateScore "poor" (some 1) = 0.2 ∧
    completenessGenerateScore "complete" = 1 ∧
    completenessGenerateScore "mostly_complete" = 0.8 ∧
    completenessGenerateScore "partial" = 0.5 ∧
    completenessGenerateScore "incomplete" = 0.2 ∧
    (appropriatenessScoreMap v = none →
      toolCallAppropriatenessGenerateScore v (some 1) = 0.5) ∧
    (completenessScoreMap v = none → completenessGenerateScore v = 0.5) ∧
    (0 ≤ toolCallAppropriatenessGenerateScore v (some conf) ∧
      toolCallAppropriatenessGenerateScore v (some conf) ≤ 1) ∧
    (0 ≤ conf → conf ≤ 1 →
      toolCallAppropriatenessGenerateScore v (some conf) =
        (appropriatenessScoreMap v).getD 0.5 * conf) ∧
    toolCallAppropriatenessGenerateScore v (some 0.5) =
      toolCallAppropriatenessGenerateScore v (some 1) / 2 ∧
    toolCallAppropriatenessGenerateScore v none =
      toolCallAppropriatenessGenerateScore v (some 1) := by
  obtain ⟨hb1, hb2⟩ := appropriateness_base_bounds v
  have hb0 : (0 : ℚ) ≤ (appropriatenessScoreMap v).getD 0.5 :=
    le_trans (by norm_num) hb1
  have hscale : ∀ c : ℚ, 0 ≤ c → c ≤ 1 →
      toolCallAppropriatenessGenerateScore v (some c) =
        (appropriatenessScoreMap v).getD 0.5 * c := by
    intro c hc0 hc1
    unfold toolCallAppropriatenessGenerateScore
    simp only [Option.getD_some]
    rw [min_eq_right (mul_le_one₀ hb2 hc0 hc1), max_eq_right (mul_nonneg hb0 hc0)]
  refine ⟨?_, ?_, ?_, ?_,
    by norm_num [completenessGenerateScore, completenessScoreMap],
    by norm_num [completenessGenerateScore, completenessScoreMap],
    by norm_num [completenessGenerateScore, completenessScoreMap],
    by norm_num [completenessGenerateScore, completenessScoreMap],
    ?_, ?_, ⟨?_, ?_⟩, hscale conf, ?_, ?_⟩
  · norm_num [toolCallAppropriatenessGenerateScore, appropriatenessScoreMap,
      min_def, max_def]
  · norm_num [toolCallAppropriatenessGenerateScore, appropriatenessScoreMap,
      min_def, max_def]
  · norm_num [toolCallAppropriatenessGenerateScore, appropriatenessScoreMap,
      min_def, max_def]
  · norm_num [toolCallAppropriatenessGenerateScore, appropriatenessScoreMap,
      min_def, max_def]
  · intro h
    unfold toolCallAppropriatenessGenerateScore
    rw [h]
    norm_num
  · intro h
    unfold completenessGenerateScore
    rw [h]
    rfl
  · exact le_max_left _ _
  · exact max_le (by norm_num) (min_le_left _ _)
  · rw [hscale 0.5 (by norm_num) (by norm_num), hscale 1 (by norm_num) (by norm_num)]
    ring
  · rfl

/-- C8 counterexample: on the stubbed record (weather_code = 0,
temperature = 22) the recommender does not report "Beach" as excellent
(its margin to the 20 lower bound is below 5), and "Shopping" and
"Restaurant" do not appear at all (all 7 activities survive the filter
and the top-5 cut drops the last two). -/
theorem stub_scenario_counterexample :
    ¬ ((∃ r ∈ (getActivityRecommendations (getCurrentWeather parisGeo stubCurrent)
            none).recommendations,
          r.activity = "Beach" ∧ r.suitability = Suitability.excellent) ∧
       (∃ r ∈ (getActivityRecommendations (getCurrentWeather parisGeo stubCurrent)
            none).recommendations, r.activity = "Shopping") ∧
       (∃ r ∈ (getActivityRecommendations (getCurrentWeather parisGeo stubCurrent)
            none).recommendations, r.activity = "Restaurant")) := by
  with_unfolding_all decide

/-- C8 (amended): on the stubbed record the conditions label is
"Clear sky" and the recommender returns exactly Hiking (excellent),
Beach (good), Cycling (excellent), Picnic (excellent), Museum
(excellent): Beach is only "good", Museum is "excellent", and Shopping
and Restaurant are cut by the top-5 limit. -/
theorem stub_scenario_actual :
    (getCurrentWeather parisGeo stubCurrent).conditions = "Clear sky" ∧
    (getActivityRecommendations (getCurrentWeather parisGeo stubCurrent)
        none).recommendations.map (fun r => (r.activity, r.suitability)) =
      [("Hiking", Suitability.excellent), ("Beach", Suitability.good),
       ("Cycling", Suitability.excellent), ("Picnic", Suitability.excellent),
       ("Museum", Suitability.excellent)] := by
  with_unfolding_all decide

/-- Witness for the suitability rule: the concrete Hiking recommendation
of the stubbed scenario is produced and is not "poor". -/
theorem activity_suitability_rule_witness :
    hikingStubRec.suitability ≠ Suitability.poor :=
  (activity_suitability_rule stubRecord none hikingStubRec
    (by with_unfolding_all decide)).1

/-- Witness for the forecast theorem at a concrete two-day payload. -/
theorem forecast_zip_days_witness :
    (getWeatherForecast parisGeo witnessDaily).forecast.length = 2 ∧
    List.map ForecastDay.date (getWeatherForecast parisGeo witnessDaily).forecast =
      witnessDaily.time ∧
    List.Pairwise (fun a b => a.date < b.date)
      (getWeatherForecast parisGeo witnessDaily).forecast :=
  ⟨(forecast_zip_days parisGeo witnessDaily 2 (by norm_num) (by norm_num)
      rfl (by with_unfolding_all decide)).1,
   (forecast_zip_days parisGeo witnessDaily 2 (by norm_num) (by norm_num)
      rfl (by with_unfolding_all decide)).2.1,
   (forecast_zip_days parisGeo witnessDaily 2 (by norm_num) (by norm_num)
      rfl (by with_unfolding_all decide)).2.2.1⟩
